import Mathlib

/-!
Verification development for the `etl.py` Spark data-lake pipeline.

The pipeline is embedded shallowly: Spark dataframes become Lean lists of
row structures, column selections become structure projections, SQL joins
become list comprehensions with SQL null semantics (`NULL = x` never
matches), and parquet writes become updates of an explicit `Store` record
together with a log of `WriteOp` metadata.  `Decimal(10,5)` amounts
(`duration`, `length`, latitude/longitude) are represented as integers
scaled by 10^5; exact equality is all the pipeline ever needs of them.
Python's `int(x.strip())` is embedded exactly (`py_strip`, `py_int`), with
failure surfacing as `Except.error`, matching the run-aborting `ValueError`.
The udf `int(int(x)/1000)` is embedded with exact arithmetic: truncation
toward zero of `ts / 1000`, i.e. `Int.tdiv ts 1000`.  The local-timezone
calendar decomposition used for the time dimension is embedded as the UTC
civil calendar (the spec itself flags the timezone as environment
dependent); no claim depends on the concrete calendar values.
-/

/-- Raw log-event record (schema inferred by `spark.read.json`; the fields
the pipeline touches).  Fields whose null-ness the pipeline's filters and
joins depend on are `Option`-typed. -/
structure Event where
  userId : String
  firstName : String
  lastName : String
  gender : String
  level : String
  ts : Int
  song : Option String
  artist : Option String
  length : Option Int
  sessionId : Int
  location : String
  userAgent : String
  page : Option String
deriving DecidableEq, Repr

/-- Raw song-metadata record, per the explicit `song_data_struct_type`
schema of `process_song_data` (note the source's spelling
`artist_lattitude`).  Every field of that schema is nullable. -/
structure SongRecord where
  song_id : Option String
  title : Option String
  year : Option Int
  duration : Option Int
  artist_id : Option String
  artist_name : Option String
  artist_location : Option String
  artist_lattitude : Option Int
  artist_longitude : Option Int
deriving DecidableEq, Repr

/-- Row of the `songs` dimension table (select order of `process_song_data`). -/
structure SongRow where
  song_id : Option String
  title : Option String
  artist_id : Option String
  year : Option Int
  duration : Option Int
deriving DecidableEq, Repr

/-- Row of the `artists` dimension table; the output column is spelled
`lattitude` exactly as in the source's `alias('lattitude')`. -/
structure ArtistRow where
  artist_id : Option String
  name : Option String
  location : Option String
  lattitude : Option Int
  longitude : Option Int
deriving DecidableEq, Repr

/-- The five raw columns selected by `create_users_table` before the
`user_id` conversion. -/
structure UsersCols where
  userId : String
  firstName : String
  lastName : String
  gender : String
  level : String
deriving DecidableEq, Repr

/-- Row of the `users` dimension table after `withColumn('user_id', ...)`
and `drop('userId')`. -/
structure UsersRow where
  firstName : String
  lastName : String
  gender : String
  level : String
  user_id : Int
deriving DecidableEq, Repr

/-- Row of the `time` dimension table produced by `create_time_table`. -/
structure TimeRow where
  start_time : Int
  hour : Int
  day : Int
  week : Int
  month : Int
  year : Int
  weekday : String
deriving DecidableEq, Repr

/-- Row of the dataframe produced by `create_songplays_dataframe`
(the `songplay` temp view). -/
structure SongplayRow where
  songplay_id : Nat
  start_time : Int
  user_id : Int
  level : String
  length : Option Int
  song : Option String
  artist : Option String
  session_id : Int
  location : String
  user_agent : String
deriving DecidableEq, Repr

/-- Row of the `songplays` fact table, in the SELECT order of the
`spark.sql` query of `process_log_data`. -/
structure FactRow where
  songplay_id : Nat
  start_time : Int
  user_id : Int
  level : String
  length : Option Int
  session_id : Int
  location : String
  user_agent : String
  artist_id : Option String
  song_id : Option String
  year : Int
  month : Int
deriving DecidableEq, Repr

/-- The object store holding the written parquet tables, one slot per fixed
output path; `none` means nothing has been written there yet. -/
structure Store where
  songs : Option (List SongRow)
  artists : Option (List ArtistRow)
  users : Option (List UsersRow)
  time : Option (List TimeRow)
  songplays : Option (List FactRow)
deriving DecidableEq, Repr

/-- Store with no prior output. -/
def emptyStore : Store := ⟨none, none, none, none, none⟩

/-- Metadata of one `DataFrameWriter.parquet` call: target path relative to
the output root, write mode, and the `partitionBy` column names. -/
structure WriteOp where
  path : String
  mode : String
  partitionBy : List String
deriving DecidableEq, Repr

/-- SQL equality on nullable columns: a comparison involving NULL is never
true, so it matches only when both sides are non-null and equal. -/
def sqlEq {α : Type} [DecidableEq α] : Option α → Option α → Bool
  | some a, some b => a = b
  | _, _ => false

/-- SQL predicate `col != ''` on a nullable string column: NULL rows do not
satisfy it. -/
def sqlNeEmpty : Option String → Bool
  | some v => v ≠ ""
  | none => false

/-- Python's `str.strip()`: remove leading and trailing whitespace. -/
def py_strip (s : String) : String :=
  ⟨((s.data.dropWhile Char.isWhitespace).reverse.dropWhile Char.isWhitespace).reverse⟩

/-- Value of a non-empty all-digit character list, `none` otherwise. -/
def digits_val : List Char → Option Nat
  | [] => none
  | l =>
    if l.all Char.isDigit then
      some (l.foldl (fun a c => a * 10 + (c.toNat - 48)) 0)
    else none

/-- Python's `int(s)` on an already-stripped string: optional sign followed
by decimal digits; anything else raises `ValueError` (here: `none`). -/
def py_int (s : String) : Option Int :=
  match s.data with
  | [] => none
  | c :: cs =>
    if c = '-' then (digits_val cs).map (fun n => -(n : Int))
    else if c = '+' then (digits_val cs).map (fun n => (n : Int))
    else (digits_val (c :: cs)).map (fun n => (n : Int))

/-- The udf `lambda x: int(x.strip())` used for the `user_id` columns. -/
def userid_int (s : String) : Option Int :=
  py_int (py_strip s)

/-- Error message of the `ValueError` raised by `int()` on a non-numeric
string, which aborts the Spark run. -/
def invalidIntError : String := "ValueError: invalid literal for int() with base 10"

/-- The udf `get_timestamp = lambda x: int(int(x)/1000)`: exact division of
the epoch-millisecond timestamp by 1000, truncated toward zero by `int()`. -/
def get_timestamp (ts : Int) : Int := Int.tdiv ts 1000

/-- Days since the Unix epoch of the instant `secs` seconds after it. -/
def days_from_secs (secs : Int) : Int := Int.fdiv secs 86400

/-- Hour-of-day component of an epoch-second instant. -/
def hour_of (secs : Int) : Int := Int.fdiv (Int.emod secs 86400) 3600

/-- Civil (proleptic Gregorian) year, month and day of a day count since
the Unix epoch. -/
def civil_of_days (days : Int) : Int × Int × Int :=
  let z := days + 719468
  let era := Int.fdiv z 146097
  let doe := z - era * 146097
  let yoe := Int.fdiv (doe - Int.fdiv doe 1460 + Int.fdiv doe 36524 - Int.fdiv doe 146096) 365
  let y := yoe + era * 400
  let doy := doe - (365 * yoe + Int.fdiv yoe 4 - Int.fdiv yoe 100)
  let mp := Int.fdiv (5 * doy + 2) 153
  let d := doy - Int.fdiv (153 * mp + 2) 5 + 1
  let m := mp + (if mp < 10 then 3 else -9)
  (y + (if m ≤ 2 then 1 else 0), m, d)

/-- Calendar year of an epoch-second instant. -/
def year_of (secs : Int) : Int := (civil_of_days (days_from_secs secs)).1

/-- Calendar month of an epoch-second instant. -/
def month_of (secs : Int) : Int := (civil_of_days (days_from_secs secs)).2.1

/-- Day of month of an epoch-second instant. -/
def day_of (secs : Int) : Int := (civil_of_days (days_from_secs secs)).2.2

/-- ISO day of week (Mon = 1 .. Sun = 7) of a day count since the epoch
(1970-01-01 was a Thursday). -/
def iso_dow (days : Int) : Int := Int.emod (days + 3) 7 + 1

/-- Helper for the ISO week-numbering rule. -/
def iso_p (y : Int) : Int :=
  Int.emod (y + Int.fdiv y 4 - Int.fdiv y 100 + Int.fdiv y 400) 7

/-- Number of ISO weeks in a year (52 or 53). -/
def iso_weeks_in (y : Int) : Int :=
  52 + (if iso_p y = 4 ∨ iso_p (y - 1) = 3 then 1 else 0)

/-- Days since the epoch of a civil date (inverse of `civil_of_days`). -/
def days_from_civil (y m d : Int) : Int :=
  let y' := y - (if m ≤ 2 then 1 else 0)
  let era := Int.fdiv y' 400
  let yoe := y' - era * 400
  let mp := Int.emod (m + 9) 12
  let doy := Int.fdiv (153 * mp + 2) 5 + d - 1
  let doe := yoe * 365 + Int.fdiv yoe 4 - Int.fdiv yoe 100 + doy
  era * 146097 + doe - 719468

/-- ISO week-of-year of an epoch-second instant (`F.weekofyear`). -/
def week_of (secs : Int) : Int :=
  let days := days_from_secs secs
  let y := year_of secs
  let ord := days - days_from_civil y 1 1 + 1
  let w := Int.fdiv (ord - iso_dow days + 10) 7
  if w < 1 then iso_weeks_in (y - 1)
  else if w > iso_weeks_in y then 1
  else w

/-- Three-letter weekday abbreviation (`F.date_format('date', 'E')`). -/
def weekday_of (secs : Int) : String :=
  (["Thu", "Fri", "Sat", "Sun", "Mon", "Tue", "Wed"].getD
    (Int.toNat (Int.emod (days_from_secs secs) 7)) "Thu")

/-- The filter `df.filter("page=='NextSong'")` of `process_log_data`:
a NULL `page` does not satisfy the predicate. -/
def page_filter (events : List Event) : List Event :=
  events.filter fun e => e.page = some "NextSong"

/-- The five-column projection `select('userId','firstName','lastName','gender','level')`. -/
def users_cols (e : Event) : UsersCols :=
  ⟨e.userId, e.firstName, e.lastName, e.gender, e.level⟩

/-- The `withColumn('user_id', userid_int(...))` plus `drop('userId')` step
applied to one already-deduplicated raw row (only reached when the udf
succeeded on every row). -/
def users_row_of (r : UsersCols) : UsersRow :=
  ⟨r.firstName, r.lastName, r.gender, r.level, (userid_int r.userId).getD 0⟩

/-- Embedding of the select-and-`dropDuplicates()` stage of
`create_users_table` (the `df_users` dataframe before the udf conversion). -/
def users_dedup (df_events : List Event) : List UsersCols :=
  (df_events.map users_cols).dedup

/-- Embedding of `create_users_table`: select the five user columns, drop
exact-duplicate rows, then convert `userId` with the `int(x.strip())` udf
(a non-numeric id aborts the run) and drop the raw string column. -/
def create_users_table (df_events : List Event) : Except String (List UsersRow) :=
  if (users_dedup df_events).all (fun r => (userid_int r.userId).isSome) then
    .ok ((users_dedup df_events).map users_row_of)
  else .error invalidIntError

/-- Time-dimension row of one event, combining the `timestamp` and `date`
columns added in `process_log_data` with the `create_time_table` select:
`start_time` keeps the original epoch-millisecond `ts`; the calendar
columns decompose the epoch-second value. -/
def time_row_of (e : Event) : TimeRow :=
  let secs := get_timestamp e.ts
  ⟨e.ts, hour_of secs, day_of secs, week_of secs, month_of secs,
    year_of secs, weekday_of secs⟩

/-- Embedding of the `create_time_table` select over the filtered events. -/
def create_time_table (df_time : List Event) : List TimeRow :=
  df_time.map time_row_of

/-- Songplay projection of one event tagged with its surrogate
`songplay_id` (`monotonically_increasing_id`, embedded as the row index),
with `userId` converted by the `int(x.strip())` udf. -/
def songplay_row_of (ie : Nat × Event) : SongplayRow :=
  ⟨ie.1, ie.2.ts, (userid_int ie.2.userId).getD 0, ie.2.level, ie.2.length,
    ie.2.song, ie.2.artist, ie.2.sessionId, ie.2.location, ie.2.userAgent⟩

/-- Embedding of `create_songplays_dataframe` (see `songplay_row_of`): the
udf conversion of `userId` aborts on a non-numeric id, otherwise every
event row is projected, tagged with its surrogate id. -/
def create_songplays_dataframe (df_log_data : List Event) : Except String (List SongplayRow) :=
  if df_log_data.all (fun e => (userid_int e.userId).isSome) then
    .ok (df_log_data.enum.map songplay_row_of)
  else .error invalidIntError

/-- Projection of a raw song record onto the `songs` dimension columns. -/
def song_row_of (r : SongRecord) : SongRow :=
  ⟨r.song_id, r.title, r.artist_id, r.year, r.duration⟩

/-- The `songs_table` built in `process_song_data`: select, filter out
empty `song_id`, drop exact-duplicate rows. -/
def songs_table (df_song_data : List SongRecord) : List SongRow :=
  ((df_song_data.map song_row_of).filter fun s => sqlNeEmpty s.song_id).dedup

/-- Projection of a raw song record onto the `artists` dimension columns,
with the source's aliases (`artist_lattitude` becomes `lattitude`). -/
def artist_row_of (r : SongRecord) : ArtistRow :=
  ⟨r.artist_id, r.artist_name, r.artist_location, r.artist_lattitude, r.artist_longitude⟩

/-- The `artists_table` built in `process_song_data`: select with aliases,
filter out empty `artist_id`, drop exact-duplicate rows. -/
def artists_table (df_song_data : List SongRecord) : List ArtistRow :=
  ((df_song_data.map artist_row_of).filter fun a => sqlNeEmpty a.artist_id).dedup

/-- Column names of the `artists` output table, in select order. -/
def artists_columns : List String :=
  ["artist_id", "name", "location", "lattitude", "longitude"]

/-- One output row of the songplays SELECT list for a songplay row joined
with a time row and the (possibly NULL) songs side of the left join;
`songs.artist_id` and `songs.song_id` are NULL when the songs side is. -/
def mkFact (p : SongplayRow) (t : TimeRow) (so : Option SongRow) : FactRow :=
  ⟨p.songplay_id, p.start_time, p.user_id, p.level, p.length, p.session_id,
    p.location, p.user_agent, so.bind SongRow.artist_id, so.bind SongRow.song_id,
    t.year, t.month⟩

/-- Rows of `songs` matched by the LEFT JOIN condition
`songplay.song = songs.title AND songplay.length = songs.duration`. -/
def song_matches (p : SongplayRow) (songs : List SongRow) : List SongRow :=
  songs.filter fun s => sqlEq p.song s.title && sqlEq p.length s.duration

/-- LEFT JOIN semantics on the matched rows of the right side: when no row
matches, a single NULL row is kept; otherwise each match contributes. -/
def left_opts {α : Type} : List α → List (Option α)
  | [] => [none]
  | l => l.map some

/-- Rows of `artists` matched by the LEFT JOIN condition
`songplay.artist = artists.name AND songs.artist_id = artists.artist_id`
(the `songs.artist_id` side is NULL when the songs join missed). -/
def artist_matches (p : SongplayRow) (so : Option SongRow) (artists : List ArtistRow) :
    List ArtistRow :=
  artists.filter fun a =>
    sqlEq p.artist a.name && sqlEq (so.bind SongRow.artist_id) a.artist_id

/-- Embedding of the `spark.sql` songplays query of `process_log_data`:
INNER JOIN to `time` on `start_time`, LEFT JOIN to `songs` on title and
length/duration, LEFT JOIN to `artists` on name and the resolved
`songs.artist_id`; the `artists` side contributes no output column. -/
def songplays_query (sp : List SongplayRow) (time : List TimeRow)
    (songs : List SongRow) (artists : List ArtistRow) : List FactRow :=
  sp.flatMap fun p =>
    (time.filter fun t => t.start_time = p.start_time).flatMap fun t =>
      (left_opts (song_matches p songs)).flatMap fun so =>
        (left_opts (artist_matches p so artists)).map fun _ => mkFact p t so

/-- Embedding of `process_song_data`: build and write the `songs` and
`artists` tables (the JSON reading against the fixed schema is abstracted
into the `df_song_data` argument). -/
def process_song_data (df_song_data : List SongRecord) (store : Store) :
    Store × List WriteOp :=
  ({ store with
      songs := some (songs_table df_song_data),
      artists := some (artists_table df_song_data) },
   [⟨"songs/songs.parquet", "overwrite", ["year", "artist_id"]⟩,
    ⟨"artists/artists.parquet", "overwrite", []⟩])

/-- Embedding of `process_log_data`: filter the events to `NextSong`, build
and write the `users` and `time` tables, read the `songs` and `artists`
tables back from the store, build the songplay dataframe, run the SQL
query, and write the `songplays` table. -/
def process_log_data (events : List Event) (store : Store) :
    Except String (Store × List WriteOp) :=
  match create_users_table (page_filter events), store.songs, store.artists,
        create_songplays_dataframe (page_filter events) with
  | .ok users_tbl, some song_df, some artists_df, .ok df_log_data =>
      .ok ({ store with
              users := some users_tbl,
              time := some (create_time_table (page_filter events)),
              songplays := some (songplays_query df_log_data
                (create_time_table (page_filter events)) song_df artists_df) },
           [⟨"users/users.parquet", "overwrite", []⟩,
            ⟨"time/time.parquet", "overwrite", ["year", "month"]⟩,
            ⟨"songplays/songplays.parquet", "overwrite", ["year", "month"]⟩])
  | .error m, _, _, _ => .error m
  | _, none, _, _ => .error "Path does not exist"
  | _, _, none, _ => .error "Path does not exist"
  | _, _, _, .error m => .error m

/-- Embedding of the `main` entry point: process the song data, then the log data (which
reads the just-written dimension tables back from the store), collecting
the write operations in order. -/
def etl_main (df_song_data : List SongRecord) (events : List Event) (store : Store) :
    Except String (Store × List WriteOp) :=
  match process_log_data events (process_song_data df_song_data store).1 with
  | .error m => .error m
  | .ok s2 => .ok (s2.1, (process_song_data df_song_data store).2 ++ s2.2)

/-! Concrete sample data used to instantiate the theorems. -/

/-- Sample `NextSong` event (ts is the spec's worked example, §8). -/
def sampleEvent : Event :=
  ⟨"1", "F", "L", "M", "free", 1541717732796, none, none, none, 100, "NYC", "agent",
    some "NextSong"⟩

/-- Sample raw song record (duration 210.5 scaled by 10^5). -/
def sampleSong : SongRecord :=
  ⟨some "S1", some "Test Song", some 2018, some 21050000, some "A1", some "Test Artist",
    some "LA", some 4200000, some 700000⟩

/-- Store holding empty (but present) `songs` and `artists` tables. -/
def dimStore : Store := { emptyStore with songs := some [], artists := some [] }

/-- SongDim row of the spec's §8 enrichment scenario. -/
def c1song : SongRow := ⟨some "S1", some "Test Song", some "A1", some 2018, some 21050000⟩

/-- ArtistDim row of the spec's §8 enrichment scenario. -/
def c1artist : ArtistRow := ⟨some "A1", some "Test Artist", none, none, none⟩

/-- Event matching the §8 scenario's dimension rows exactly. -/
def c1event : Event :=
  { sampleEvent with
      song := some "Test Song"
      length := some 21050000
      artist := some "Test Artist" }

/-- Event with no song/artist/length match at all. -/
def c1nomatch : Event := { sampleEvent with userId := "2", sessionId := 200 }

/-- The §8 scenario's events. -/
def c1events : List Event := [c1event, c1nomatch]

/-- Store holding the §8 scenario's dimension tables. -/
def c1store : Store := { emptyStore with songs := some [c1song], artists := some [c1artist] }

/-- Result of processing the §8 scenario. -/
def c1out : Store × List WriteOp :=
  (process_log_data c1events c1store).toOption.getD (emptyStore, [])

/-- Two events sharing the same timestamp. -/
def c5events : List Event := [sampleEvent, { sampleEvent with userId := "2", sessionId := 200 }]

/-- Result of processing the duplicate-timestamp events. -/
def c5out : Store × List WriteOp :=
  (process_log_data c5events dimStore).toOption.getD (emptyStore, [])

/-- One `NextSong` event and one `Home` event. -/
def c8events : List Event := [sampleEvent, { sampleEvent with userId := "3", page := some "Home" }]

/-- Result of processing the mixed-page events. -/
def c8out : Store × List WriteOp :=
  (process_log_data c8events dimStore).toOption.getD (emptyStore, [])

/-- Result of a full run on empty inputs. -/
def runEmpty : Store × List WriteOp :=
  (etl_main [] [] emptyStore).toOption.getD (emptyStore, [])

/-! Helper lemmas about the embedding. -/

lemma some_getD {α : Type} {o : Option α} {d : α} (h : o.isSome = true) :
    some (o.getD d) = o := by
  cases o with
  | none => cases h
  | some v => rfl

lemma sqlEq_eq_true {α : Type} [DecidableEq α] {x y : Option α} :
    sqlEq x y = true ↔ ∃ v, x = some v ∧ y = some v := by
  cases x <;> cases y <;> simp [sqlEq, eq_comm]

lemma left_opts_ne_nil {α : Type} (l : List α) : left_opts l ≠ [] := by
  cases l <;> simp [left_opts]

lemma mem_left_opts_some {α : Type} {l : List α} {x : α} (h : x ∈ l) :
    some x ∈ left_opts l := by
  cases l with
  | nil => cases h
  | cons a t => simp only [left_opts]; exact List.mem_map_of_mem _ h

lemma left_opts_of_nil {α : Type} {l : List α} (h : l = []) : left_opts l = [none] := by
  subst h; rfl

lemma mem_left_opts {α : Type} {l : List α} {x : Option α} (h : x ∈ left_opts l) :
    (x = none ∧ l = []) ∨ ∃ a ∈ l, x = some a := by
  cases l with
  | nil => simp [left_opts] at h; exact Or.inl ⟨h, rfl⟩
  | cons a t =>
    simp only [left_opts] at h
    right
    obtain ⟨b, hb, hx⟩ := List.mem_map.mp h
    exact ⟨b, hb, hx.symm⟩

lemma mem_map_const {α β : Type} {l : List α} (h : l ≠ []) (x : β) :
    x ∈ l.map fun _ => x := by
  cases l with
  | nil => exact absurd rfl h
  | cons a l => simp

lemma mem_enumFrom_of_mem {α : Type} {a : α} :
    ∀ {l : List α} (n : Nat), a ∈ l → ∃ i, (i, a) ∈ List.enumFrom n l := by
  intro l
  induction l with
  | nil => intro n h; cases h
  | cons x xs ih =>
    intro n h
    rcases List.mem_cons.mp h with h | h
    · subst h; exact ⟨n, by simp [List.enumFrom_cons]⟩
    · obtain ⟨i, hi⟩ := ih (n + 1) h
      exact ⟨i, by simp [List.enumFrom_cons, hi]⟩

lemma mem_enum_of_mem {α : Type} {a : α} {l : List α} (h : a ∈ l) :
    ∃ i, (i, a) ∈ l.enum := mem_enumFrom_of_mem 0 h

lemma snd_mem_of_mem_enum {α : Type} {l : List α} {x : Nat × α} (h : x ∈ l.enum) :
    x.2 ∈ l := by
  obtain ⟨i, a⟩ := x
  obtain ⟨h1, h2⟩ := List.mem_enum h
  exact h2 ▸ List.getElem_mem h1

lemma query_mem_of_match {sp : List SongplayRow} {time : List TimeRow}
    {songs : List SongRow} {artists : List ArtistRow} {p : SongplayRow}
    {t : TimeRow} {s : SongRow}
    (hp : p ∈ sp) (ht : t ∈ time) (hts : t.start_time = p.start_time)
    (hs : s ∈ songs) (h1 : sqlEq p.song s.title = true)
    (h2 : sqlEq p.length s.duration = true) :
    mkFact p t (some s) ∈ songplays_query sp time songs artists := by
  unfold songplays_query
  refine List.mem_flatMap.mpr ⟨p, hp, ?_⟩
  refine List.mem_flatMap.mpr ⟨t, List.mem_filter.mpr ⟨ht, by simp [hts]⟩, ?_⟩
  refine List.mem_flatMap.mpr ⟨some s, ?_, ?_⟩
  · exact mem_left_opts_some (List.mem_filter.mpr ⟨hs, by simp [h1, h2]⟩)
  · exact mem_map_const (left_opts_ne_nil _) _

lemma query_mem_of_nomatch {sp : List SongplayRow} {time : List TimeRow}
    {songs : List SongRow} {artists : List ArtistRow} {p : SongplayRow}
    {t : TimeRow}
    (hp : p ∈ sp) (ht : t ∈ time) (hts : t.start_time = p.start_time)
    (hno : ∀ s ∈ songs, ¬(sqlEq p.song s.title = true ∧ sqlEq p.length s.duration = true)) :
    mkFact p t none ∈ songplays_query sp time songs artists := by
  unfold songplays_query
  refine List.mem_flatMap.mpr ⟨p, hp, ?_⟩
  refine List.mem_flatMap.mpr ⟨t, List.mem_filter.mpr ⟨ht, by simp [hts]⟩, ?_⟩
  have hnil : song_matches p songs = [] := by
    refine List.filter_eq_nil_iff.mpr ?_
    intro s hs
    have := hno s hs
    simp only [Bool.and_eq_true]
    intro hc
    exact this hc
  refine List.mem_flatMap.mpr ⟨none, ?_, ?_⟩
  · rw [left_opts_of_nil hnil]; exact List.mem_cons_self _ _
  · exact mem_map_const (left_opts_ne_nil _) _

lemma query_provenance {sp : List SongplayRow} {time : List TimeRow}
    {songs : List SongRow} {artists : List ArtistRow} {f : FactRow}
    (h : f ∈ songplays_query sp time songs artists) :
    ∃ p, p ∈ sp ∧ ∃ t, t ∈ time ∧ t.start_time = p.start_time ∧
      ((f = mkFact p t none ∧ song_matches p songs = []) ∨
       ∃ s, s ∈ song_matches p songs ∧ f = mkFact p t (some s)) := by
  unfold songplays_query at h
  obtain ⟨p, hp, h⟩ := List.mem_flatMap.mp h
  obtain ⟨t, ht, h⟩ := List.mem_flatMap.mp h
  obtain ⟨ht, hts⟩ := List.mem_filter.mp ht
  obtain ⟨so, hso, h⟩ := List.mem_flatMap.mp h
  obtain ⟨_, _, hf⟩ := List.mem_map.mp h
  refine ⟨p, hp, t, ht, by simpa using hts, ?_⟩
  rcases mem_left_opts hso with ⟨rfl, hnil⟩ | ⟨s, hs, rfl⟩
  · exact Or.inl ⟨hf.symm, hnil⟩
  · exact Or.inr ⟨s, hs, hf.symm⟩

lemma create_users_table_ok {df : List Event} {t : List UsersRow}
    (h : create_users_table df = Except.ok t) :
    t = (users_dedup df).map users_row_of ∧
    ∀ r ∈ users_dedup df, (userid_int r.userId).isSome = true := by
  unfold create_users_table at h
  split at h
  next hall =>
    injection h with h'
    exact ⟨h'.symm, fun r hr => List.all_eq_true.mp hall r hr⟩
  next => cases h

lemma create_users_table_error {df : List Event} {e : Event}
    (he : e ∈ df) (hbad : userid_int e.userId = none) :
    create_users_table df = Except.error invalidIntError := by
  unfold create_users_table
  split
  next hall =>
    have := List.all_eq_true.mp hall (users_cols e)
      (List.mem_dedup.mpr (List.mem_map_of_mem _ he))
    rw [show (users_cols e).userId = e.userId from rfl, hbad] at this
    cases this
  next => rfl

lemma mem_users_dedup_of_mem {df : List Event} {e : Event} (he : e ∈ df) :
    users_cols e ∈ users_dedup df :=
  List.mem_dedup.mpr (List.mem_map_of_mem _ he)

lemma users_dedup_provenance {df : List Event} {r : UsersCols}
    (hr : r ∈ users_dedup df) : ∃ e ∈ df, users_cols e = r := by
  have := List.mem_dedup.mp hr
  exact List.mem_map.mp this

lemma create_songplays_dataframe_ok {df : List Event} {sp : List SongplayRow}
    (h : create_songplays_dataframe df = Except.ok sp) :
    sp = df.enum.map songplay_row_of ∧
    ∀ e ∈ df, (userid_int e.userId).isSome = true := by
  unfold create_songplays_dataframe at h
  split at h
  next hall =>
    injection h with h'
    exact ⟨h'.symm, fun e he => List.all_eq_true.mp hall e he⟩
  next => cases h

lemma create_songplays_dataframe_error {df : List Event} {e : Event}
    (he : e ∈ df) (hbad : userid_int e.userId = none) :
    create_songplays_dataframe df = Except.error invalidIntError := by
  unfold create_songplays_dataframe
  split
  next hall =>
    have := List.all_eq_true.mp hall e he
    rw [hbad] at this
    cases this
  next => rfl

lemma process_log_data_ok {events : List Event} {store : Store}
    {out : Store × List WriteOp}
    (h : process_log_data events store = Except.ok out) :
    ∃ users_tbl sp song_df artists_df,
      create_users_table (page_filter events) = Except.ok users_tbl ∧
      create_songplays_dataframe (page_filter events) = Except.ok sp ∧
      store.songs = some song_df ∧ store.artists = some artists_df ∧
      out = ({ store with
                users := some users_tbl,
                time := some (create_time_table (page_filter events)),
                songplays := some (songplays_query sp
                  (create_time_table (page_filter events)) song_df artists_df) },
             [⟨"users/users.parquet", "overwrite", []⟩,
              ⟨"time/time.parquet", "overwrite", ["year", "month"]⟩,
              ⟨"songplays/songplays.parquet", "overwrite", ["year", "month"]⟩]) := by
  unfold process_log_data at h
  split at h
  next users_tbl song_df artists_df sp hu hsongs hartists hsp =>
    injection h with h'
    exact ⟨users_tbl, sp, song_df, artists_df, hu, hsp, hsongs, hartists, h'.symm⟩
  next => simp at h
  next => simp at h
  next => simp at h
  next => simp at h

lemma count_time_filter (df : List Event) (v : Int) :
    ((df.map time_row_of).filter fun t => t.start_time = v).length =
      List.count v (df.map Event.ts) := by
  induction df with
  | nil => rfl
  | cons e l ih =>
    by_cases h : e.ts = v
    · simp [List.filter_cons, List.count_cons, time_row_of, h, ih]
    · simp [List.filter_cons, List.count_cons, time_row_of, h, ih]

/-! Theorems settling the claims. -/

/-- C7: every SongDim row has a non-empty `song_id` (empty-string and NULL
rows are filtered out before deduplication) and no two rows of the songs
table are identical across all columns. -/
theorem songs_table_nonempty_id_nodup (rs : List SongRecord) :
    (songs_table rs).Nodup ∧
    ∀ s ∈ songs_table rs, ∃ v, s.song_id = some v ∧ v ≠ "" := by
  constructor
  · exact List.nodup_dedup _
  · intro s hs
    have hs' := List.mem_dedup.mp hs
    have hp := (List.mem_filter.mp hs').2
    cases h : s.song_id with
    | none => rw [h] at hp; cases hp
    | some v =>
      refine ⟨v, rfl, ?_⟩
      rw [h] at hp
      simpa [sqlNeEmpty] using hp

/-- Witness for C7 at a concrete song record. -/
theorem songs_table_nonempty_id_nodup_witness :
    (songs_table [sampleSong]).Nodup ∧
    ∃ v, (song_row_of sampleSong).song_id = some v ∧ v ≠ "" :=
  ⟨(songs_table_nonempty_id_nodup [sampleSong]).1,
   (songs_table_nonempty_id_nodup [sampleSong]).2 (song_row_of sampleSong) (by decide)⟩

/-- C6 counterexample: the artists output table has no column named
`latitude`; the source aliases the (misspelled) schema field
`artist_lattitude` to a column named `lattitude`, whose value is the raw
record's `artist_lattitude`. -/
theorem artists_latitude_column_counterexample :
    "latitude" ∉ artists_columns ∧ "lattitude" ∈ artists_columns ∧
    artists_table [sampleSong] =
      [⟨some "A1", some "Test Artist", some "LA", some 4200000, some 700000⟩] := by
  refine ⟨by decide, by decide, by decide⟩

/-- C6 (amended): the ArtistDim builder projects SongRecords to
(artist_id, artist_name→name, artist_location→location,
artist_lattitude→lattitude, artist_longitude→longitude) — with the
source's `lattitude` spelling — filters out NULL/empty artist_id, and
drops exact-duplicate rows. -/
theorem artists_builder_projection (rs : List SongRecord) :
    (artists_table rs).Nodup ∧
    ∀ a ∈ artists_table rs,
      (∃ r ∈ rs, a = artist_row_of r ∧ a.name = r.artist_name ∧
        a.location = r.artist_location ∧ a.lattitude = r.artist_lattitude ∧
        a.longitude = r.artist_longitude ∧ a.artist_id = r.artist_id) ∧
      ∃ v, a.artist_id = some v ∧ v ≠ "" := by
  constructor
  · exact List.nodup_dedup _
  · intro a ha
    have ha' := List.mem_dedup.mp ha
    obtain ⟨haf, hp⟩ := List.mem_filter.mp ha'
    constructor
    · obtain ⟨r, hr, hra⟩ := List.mem_map.mp haf
      subst hra
      exact ⟨r, hr, rfl, rfl, rfl, rfl, rfl, rfl⟩
    · cases h : a.artist_id with
      | none => rw [h] at hp; cases hp
      | some v =>
        refine ⟨v, rfl, ?_⟩
        rw [h] at hp
        simpa [sqlNeEmpty] using hp

/-- Witness for the amended C6 at a concrete song record. -/
theorem artists_builder_projection_witness :
    (artists_table [sampleSong]).Nodup ∧
    ((∃ r ∈ [sampleSong], artist_row_of sampleSong = artist_row_of r ∧
        (artist_row_of sampleSong).name = r.artist_name ∧
        (artist_row_of sampleSong).location = r.artist_location ∧
        (artist_row_of sampleSong).lattitude = r.artist_lattitude ∧
        (artist_row_of sampleSong).longitude = r.artist_longitude ∧
        (artist_row_of sampleSong).artist_id = r.artist_id) ∧
      ∃ v, (artist_row_of sampleSong).artist_id = some v ∧ v ≠ "") :=
  ⟨(artists_builder_projection [sampleSong]).1,
   (artists_builder_projection [sampleSong]).2 (artist_row_of sampleSong) (by decide)⟩

/-- C2 counterexample: two event rows whose userId strings differ only in
leading whitespace survive `dropDuplicates()` as distinct raw rows, but
after the int conversion and the drop of the raw column the users table
contains two identical rows. -/
theorem users_table_duplicate_rows_counterexample :
    create_users_table
        [{ sampleEvent with userId := "5" }, { sampleEvent with userId := " 5" }] =
      Except.ok [⟨"F", "L", "M", "free", 5⟩, ⟨"F", "L", "M", "free", 5⟩] ∧
    ¬ List.Nodup [(⟨"F", "L", "M", "free", 5⟩ : UsersRow), ⟨"F", "L", "M", "free", 5⟩] := by
  exact ⟨rfl, by decide⟩

/-- C2 (amended): SongDim and ArtistDim contain no duplicate rows
unconditionally; UserDim contains no duplicate rows provided no two event
rows carry userId strings that parse (after whitespace trimming) to the
same integer while differing as raw strings — the builder deduplicates
before the conversion, so e.g. "5" vs " 5" would otherwise produce two
identical output rows. -/
theorem dimension_tables_nodup (rs : List SongRecord) (events : List Event) :
    (songs_table rs).Nodup ∧ (artists_table rs).Nodup ∧
    ∀ t, (∀ e1 ∈ events, ∀ e2 ∈ events,
        userid_int e1.userId = userid_int e2.userId → e1.userId = e2.userId) →
      create_users_table events = Except.ok t → t.Nodup := by
  refine ⟨List.nodup_dedup _, List.nodup_dedup _, ?_⟩
  intro t hinj h
  obtain ⟨hteq, hall⟩ := create_users_table_ok h
  subst hteq
  refine List.Nodup.map_on ?_ (List.nodup_dedup _)
  intro x hx y hy hxy
  obtain ⟨e1, he1, he1x⟩ := users_dedup_provenance hx
  obtain ⟨e2, he2, he2y⟩ := users_dedup_provenance hy
  have h1 := hall x hx
  have h2 := hall y hy
  rcases x with ⟨xu, xf, xl, xg, xv⟩
  rcases y with ⟨yu, yf, yl, yg, yv⟩
  simp only [users_row_of, UsersRow.mk.injEq] at hxy
  obtain ⟨hf, hl, hg, hlv, hid⟩ := hxy
  have hids : userid_int xu = userid_int yu := by
    calc userid_int xu = some ((userid_int xu).getD 0) := (some_getD h1).symm
    _ = some ((userid_int yu).getD 0) := by rw [hid]
    _ = userid_int yu := some_getD h2
  have hx1 : e1.userId = xu := congrArg UsersCols.userId he1x
  have hy1 : e2.userId = yu := congrArg UsersCols.userId he2y
  have huu : xu = yu := by
    rw [← hx1, ← hy1]
    exact hinj e1 he1 e2 he2 (by rw [hx1, hy1]; exact hids)
  simp [UsersCols.mk.injEq, huu, hf, hl, hg, hlv]

/-- Witness for the amended C2 at concrete inputs. -/
theorem dimension_tables_nodup_witness :
    (songs_table [sampleSong]).Nodup ∧ (artists_table [sampleSong]).Nodup ∧
    List.Nodup [(⟨"F", "L", "M", "free", 1⟩ : UsersRow)] :=
  ⟨(dimension_tables_nodup [sampleSong] [sampleEvent]).1,
   (dimension_tables_nodup [sampleSong] [sampleEvent]).2.1,
   (dimension_tables_nodup [sampleSong] [sampleEvent]).2.2 _ (by decide) rfl⟩

/-- C4: the `user_id` of every UserDim and SongplayFact row is obtained by
trimming whitespace from the raw userId string and parsing it as an
integer; a non-numeric id makes both builders fail with the parse error
(rows are never silently dropped or coerced: on success the songplay frame
keeps one row per event). -/
theorem user_id_parse (events : List Event) :
    (∀ s : String, userid_int s = py_int (py_strip s)) ∧
    (∀ e ∈ events, userid_int e.userId = none →
      create_users_table events = Except.error invalidIntError ∧
      create_songplays_dataframe events = Except.error invalidIntError) ∧
    (∀ t, create_users_table events = Except.ok t →
      ∀ u ∈ t, ∃ e ∈ events, some u.user_id = userid_int e.userId) ∧
    (∀ sp, create_songplays_dataframe events = Except.ok sp →
      sp.length = events.length ∧
      ∀ p ∈ sp, ∃ e ∈ events, some p.user_id = userid_int e.userId) := by
  refine ⟨fun s => rfl, ?_, ?_, ?_⟩
  · intro e he hbad
    exact ⟨create_users_table_error he hbad, create_songplays_dataframe_error he hbad⟩
  · intro t ht u hu
    obtain ⟨hteq, hall⟩ := create_users_table_ok ht
    subst hteq
    obtain ⟨r, hr, hru⟩ := List.mem_map.mp hu
    obtain ⟨e, he, her⟩ := users_dedup_provenance hr
    refine ⟨e, he, ?_⟩
    have hsome := hall r hr
    subst hru
    have huid : e.userId = r.userId := congrArg UsersCols.userId her
    rw [huid]
    exact some_getD hsome
  · intro sp hsp
    obtain ⟨hspe, hall⟩ := create_songplays_dataframe_ok hsp
    subst hspe
    constructor
    · simp [List.enum_length]
    · intro p hp
      obtain ⟨ie, hie, hpe⟩ := List.mem_map.mp hp
      have he : ie.2 ∈ events := snd_mem_of_mem_enum hie
      refine ⟨ie.2, he, ?_⟩
      have hsome := hall ie.2 he
      subst hpe
      exact some_getD hsome

/-- Witness for C4: a non-numeric id aborts both builders; numeric ids are
parsed from the trimmed string. -/
theorem user_id_parse_witness :
    userid_int " 42 " = py_int (py_strip " 42 ") ∧
    create_users_table [{ sampleEvent with userId := "x7" }] =
      Except.error invalidIntError ∧
    create_songplays_dataframe [{ sampleEvent with userId := "x7" }] =
      Except.error invalidIntError ∧
    (∃ e ∈ [sampleEvent], some ((1 : Int)) = userid_int e.userId) ∧
    [songplay_row_of (0, sampleEvent)].length = [sampleEvent].length ∧
    (∃ e ∈ [sampleEvent], some (songplay_row_of (0, sampleEvent)).user_id = userid_int e.userId) := by
  have Hbad := (user_id_parse [{ sampleEvent with userId := "x7" }]).2.1
    { sampleEvent with userId := "x7" } (List.mem_cons_self _ _) (by decide)
  have Hok := (user_id_parse [sampleEvent]).2.2.1 [⟨"F", "L", "M", "free", 1⟩] rfl
    ⟨"F", "L", "M", "free", 1⟩ (List.mem_cons_self _ _)
  have Hsp := (user_id_parse [sampleEvent]).2.2.2 [songplay_row_of (0, sampleEvent)] rfl
  exact ⟨(user_id_parse []).1 " 42 ", Hbad.1, Hbad.2, Hok, Hsp.1,
    Hsp.2 (songplay_row_of (0, sampleEvent)) (List.mem_cons_self _ _)⟩

/-- C10: a successful full run performs exactly five writes, all in
overwrite mode to the fixed paths under the output root: songs partitioned
by (year, artist_id), time and songplays partitioned by (year, month),
artists and users unpartitioned. -/
theorem write_ops_fixed (rs : List SongRecord) (events : List Event)
    (store : Store) (out : Store × List WriteOp)
    (h : etl_main rs events store = Except.ok out) :
    out.2 = [⟨"songs/songs.parquet", "overwrite", ["year", "artist_id"]⟩,
             ⟨"artists/artists.parquet", "overwrite", []⟩,
             ⟨"users/users.parquet", "overwrite", []⟩,
             ⟨"time/time.parquet", "overwrite", ["year", "month"]⟩,
             ⟨"songplays/songplays.parquet", "overwrite", ["year", "month"]⟩] := by
  unfold etl_main at h
  split at h
  next => cases h
  next s2 heq =>
    injection h with h'
    obtain ⟨u, sp, sd, ad, hu, hsp, hsd, had, hout⟩ := process_log_data_ok heq
    rw [← h', hout]
    rfl

/-- Witness for C10 on a concrete (empty-input) run. -/
theorem write_ops_fixed_witness :
    runEmpty.2 = [⟨"songs/songs.parquet", "overwrite", ["year", "artist_id"]⟩,
             ⟨"artists/artists.parquet", "overwrite", []⟩,
             ⟨"users/users.parquet", "overwrite", []⟩,
             ⟨"time/time.parquet", "overwrite", ["year", "month"]⟩,
             ⟨"songplays/songplays.parquet", "overwrite", ["year", "month"]⟩] :=
  write_ops_fixed [] [] emptyStore runEmpty rfl

/-- C8: no row derived from an event whose page is not `NextSong` appears
in the users, time, or songplays output of `process_log_data`: every
output row traces back to an event with `page = "NextSong"`. -/
theorem page_filter_excludes (events : List Event) (store : Store)
    (out : Store × List WriteOp)
    (h : process_log_data events store = Except.ok out) :
    (∀ u ∈ out.1.users.getD [], ∃ e ∈ events, e.page = some "NextSong" ∧
       u.firstName = e.firstName ∧ u.lastName = e.lastName ∧
       u.gender = e.gender ∧ u.level = e.level) ∧
    (∀ t ∈ out.1.time.getD [], ∃ e ∈ events, e.page = some "NextSong" ∧
       t.start_time = e.ts) ∧
    (∀ f ∈ out.1.songplays.getD [], ∃ e ∈ events, e.page = some "NextSong" ∧
       f.start_time = e.ts ∧ f.session_id = e.sessionId) := by
  obtain ⟨users_tbl, sp, song_df, artists_df, hu, hsp, hsongs, hartists, hout⟩ :=
    process_log_data_ok h
  subst hout
  refine ⟨?_, ?_, ?_⟩
  · intro u hu'
    replace hu' : u ∈ users_tbl := hu'
    obtain ⟨hteq, -⟩ := create_users_table_ok hu
    subst hteq
    obtain ⟨r, hr, hru⟩ := List.mem_map.mp hu'
    obtain ⟨e, he, her⟩ := users_dedup_provenance hr
    unfold page_filter at he
    obtain ⟨he', hpage⟩ := List.mem_filter.mp he
    subst hru
    subst her
    exact ⟨e, he', of_decide_eq_true hpage, rfl, rfl, rfl, rfl⟩
  · intro t ht'
    replace ht' : t ∈ create_time_table (page_filter events) := ht'
    unfold create_time_table at ht'
    obtain ⟨e, he, het⟩ := List.mem_map.mp ht'
    unfold page_filter at he
    obtain ⟨he', hpage⟩ := List.mem_filter.mp he
    subst het
    exact ⟨e, he', of_decide_eq_true hpage, rfl⟩
  · intro f hf'
    replace hf' : f ∈ songplays_query sp
        (create_time_table (page_filter events)) song_df artists_df := hf'
    obtain ⟨p, hp, t, ht, hts, hcase⟩ := query_provenance hf'
    obtain ⟨hspe, -⟩ := create_songplays_dataframe_ok hsp
    subst hspe
    obtain ⟨ie, hie, hpe⟩ := List.mem_map.mp hp
    have he : ie.2 ∈ page_filter events := snd_mem_of_mem_enum hie
    unfold page_filter at he
    obtain ⟨he', hpage⟩ := List.mem_filter.mp he
    subst hpe
    have hfst : f.start_time = ie.2.ts := by
      rcases hcase with ⟨rfl, -⟩ | ⟨s, -, rfl⟩ <;> rfl
    have hsid : f.session_id = ie.2.sessionId := by
      rcases hcase with ⟨rfl, -⟩ | ⟨s, -, rfl⟩ <;> rfl
    exact ⟨ie.2, he', of_decide_eq_true hpage, hfst, hsid⟩

/-- Witness for C8 at a concrete run with one NextSong and one Home event. -/
theorem page_filter_excludes_witness :
    (∃ e ∈ c8events, e.page = some "NextSong" ∧
       (⟨"F", "L", "M", "free", 1⟩ : UsersRow).firstName = e.firstName ∧
       (⟨"F", "L", "M", "free", 1⟩ : UsersRow).lastName = e.lastName ∧
       (⟨"F", "L", "M", "free", 1⟩ : UsersRow).gender = e.gender ∧
       (⟨"F", "L", "M", "free", 1⟩ : UsersRow).level = e.level) ∧
    (∃ e ∈ c8events, e.page = some "NextSong" ∧
       (time_row_of sampleEvent).start_time = e.ts) ∧
    (∃ e ∈ c8events, e.page = some "NextSong" ∧
       (mkFact (songplay_row_of (0, sampleEvent)) (time_row_of sampleEvent) none).start_time = e.ts ∧
       (mkFact (songplay_row_of (0, sampleEvent)) (time_row_of sampleEvent) none).session_id = e.sessionId) := by
  have H := page_filter_excludes c8events dimStore c8out rfl
  exact ⟨H.1 _ (by decide), H.2.1 _ (by decide), H.2.2 _ (by decide)⟩

/-- C3 counterexample: a songplay matching a SongDim row whose own
`artist_id` is NULL yields a fact row with non-null `song_id` but null
`artist_id`, so "artist_id is null exactly when song_id is null" fails. -/
theorem artist_id_from_songs_counterexample :
    songplays_query
        [⟨0, 1000, 1, "free", some 100, some "T", none, 100, "NYC", "agent"⟩]
        [⟨1000, 0, 0, 0, 0, 0, "Thu"⟩]
        [⟨some "S1", some "T", none, none, some 100⟩] [] =
      [⟨0, 1000, 1, "free", some 100, 100, "NYC", "agent", none, some "S1", 0, 0⟩] ∧
    (⟨0, 1000, 1, "free", some 100, 100, "NYC", "agent", none, some "S1", 0, 0⟩
        : FactRow).artist_id = none ∧
    (⟨0, 1000, 1, "free", some 100, 100, "NYC", "agent", none, some "S1", 0, 0⟩
        : FactRow).song_id ≠ none := by
  exact ⟨rfl, rfl, by decide⟩

/-- C3 (amended): the fact's `artist_id` and `song_id` are both taken from
the songs side of the join (the artists LEFT JOIN contributes no output
column — the same fact rows appear with the artists table emptied): when
the songs join misses, both are null; when it matches, they are the
matched SongRow's `song_id` and `artist_id`, so `artist_id` can be null
with `song_id` non-null if the song row's artist_id is null. -/
theorem artist_id_from_songs (sp : List SongplayRow) (time : List TimeRow)
    (songs : List SongRow) (artists : List ArtistRow) (f : FactRow)
    (h : f ∈ songplays_query sp time songs artists) :
    ((f.song_id = none ∧ f.artist_id = none) ∨
      ∃ s ∈ songs, f.song_id = s.song_id ∧ f.artist_id = s.artist_id) ∧
    f ∈ songplays_query sp time songs [] := by
  obtain ⟨p, hp, t, ht, hts, hcase⟩ := query_provenance h
  constructor
  · rcases hcase with ⟨rfl, -⟩ | ⟨s, hs, rfl⟩
    · exact Or.inl ⟨rfl, rfl⟩
    · exact Or.inr ⟨s, (List.mem_filter.mp hs).1, rfl, rfl⟩
  · rcases hcase with ⟨rfl, hnil⟩ | ⟨s, hs, rfl⟩
    · apply query_mem_of_nomatch hp ht hts
      intro s hs hc
      have : s ∈ song_matches p songs :=
        List.mem_filter.mpr ⟨hs, by simp [hc.1, hc.2]⟩
      rw [hnil] at this
      cases this
    · obtain ⟨hs', hcond⟩ := List.mem_filter.mp hs
      have hc : sqlEq p.song s.title = true ∧ sqlEq p.length s.duration = true := by
        simpa using hcond
      exact query_mem_of_match hp ht hts hs' hc.1 hc.2

/-- Witness for the amended C3 on the §8 scenario data. -/
theorem artist_id_from_songs_witness :
    (((mkFact (songplay_row_of (0, c1event)) (time_row_of c1event) (some c1song)).song_id = none ∧
      (mkFact (songplay_row_of (0, c1event)) (time_row_of c1event) (some c1song)).artist_id = none) ∨
     ∃ s ∈ [c1song],
       (mkFact (songplay_row_of (0, c1event)) (time_row_of c1event) (some c1song)).song_id = s.song_id ∧
       (mkFact (songplay_row_of (0, c1event)) (time_row_of c1event) (some c1song)).artist_id = s.artist_id) ∧
    mkFact (songplay_row_of (0, c1event)) (time_row_of c1event) (some c1song) ∈
      songplays_query [songplay_row_of (0, c1event)] [time_row_of c1event] [c1song] [] :=
  artist_id_from_songs [songplay_row_of (0, c1event)] [time_row_of c1event]
    [c1song] [c1artist] _ (by decide)

/-- C1: fact resolution is a left join.  For a filtered event whose song
title and length exactly match a SongDim row (with non-null song_id) and
whose artist name matches an ArtistDim row with the resolved artist_id,
the output contains a fact row for it with non-null `song_id` and
`artist_id`; for a filtered event with no exact song match, the output
still contains its fact row, with `song_id = null` and `artist_id = null`
— never silently dropped. -/
theorem fact_left_join (events : List Event) (store : Store)
    (out : Store × List WriteOp) (e : Event)
    (songs : List SongRow) (artists : List ArtistRow)
    (h : process_log_data events store = Except.ok out)
    (hsongs : store.songs = some songs) (hartists : store.artists = some artists)
    (he : e ∈ events) (hpage : e.page = some "NextSong") :
    (∀ s ∈ songs, ∀ sid, sqlEq e.song s.title = true →
      sqlEq e.length s.duration = true → s.song_id = some sid →
      ∀ a ∈ artists, sqlEq e.artist a.name = true →
        sqlEq s.artist_id a.artist_id = true →
        ∃ f ∈ out.1.songplays.getD [], f.start_time = e.ts ∧
          f.session_id = e.sessionId ∧ f.song_id = some sid ∧
          f.artist_id = s.artist_id ∧ f.artist_id ≠ none) ∧
    ((∀ s ∈ songs, ¬(sqlEq e.song s.title = true ∧ sqlEq e.length s.duration = true)) →
      ∃ f ∈ out.1.songplays.getD [], f.start_time = e.ts ∧
        f.session_id = e.sessionId ∧ f.song_id = none ∧ f.artist_id = none) := by
  obtain ⟨users_tbl, sp, song_df, artists_df, hu, hsp, hsongs', hartists', hout⟩ :=
    process_log_data_ok h
  rw [hsongs] at hsongs'
  injection hsongs' with hsd
  subst hsd
  rw [hartists] at hartists'
  injection hartists' with had
  subst had
  subst hout
  obtain ⟨hspe, -⟩ := create_songplays_dataframe_ok hsp
  subst hspe
  have hedf : e ∈ page_filter events := by
    unfold page_filter
    exact List.mem_filter.mpr ⟨he, decide_eq_true hpage⟩
  obtain ⟨i, hie⟩ := mem_enum_of_mem hedf
  have hpsp : songplay_row_of (i, e) ∈ (page_filter events).enum.map songplay_row_of :=
    List.mem_map_of_mem _ hie
  have htm : time_row_of e ∈ create_time_table (page_filter events) :=
    List.mem_map_of_mem _ hedf
  have hts : (time_row_of e).start_time = (songplay_row_of (i, e)).start_time := rfl
  constructor
  · intro s hs sid h1 h2 hsid a ha ha1 ha2
    refine ⟨mkFact (songplay_row_of (i, e)) (time_row_of e) (some s), ?_, rfl, rfl, ?_, rfl, ?_⟩
    · exact query_mem_of_match hpsp htm hts hs h1 h2
    · show s.song_id = some sid
      exact hsid
    · show s.artist_id ≠ none
      obtain ⟨v, hv, -⟩ := sqlEq_eq_true.mp ha2
      rw [hv]
      simp
  · intro hno
    refine ⟨mkFact (songplay_row_of (i, e)) (time_row_of e) none, ?_, rfl, rfl, rfl, rfl⟩
    exact query_mem_of_nomatch hpsp htm hts hno

/-- Witness for C1 on the spec's §8 scenario: the matching event resolves
to song_id "S1" and artist_id "A1"; the non-matching event keeps a fact
row with both ids null. -/
theorem fact_left_join_witness :
    (∃ f ∈ c1out.1.songplays.getD [], f.start_time = c1event.ts ∧
       f.session_id = c1event.sessionId ∧ f.song_id = some "S1" ∧
       f.artist_id = c1song.artist_id ∧ f.artist_id ≠ none) ∧
    (∃ f ∈ c1out.1.songplays.getD [], f.start_time = c1nomatch.ts ∧
       f.session_id = c1nomatch.sessionId ∧ f.song_id = none ∧
       f.artist_id = none) := by
  have Hpos := (fact_left_join c1events c1store c1out c1event [c1song] [c1artist]
    rfl rfl rfl (by decide) rfl).1 c1song (List.mem_cons_self _ _) "S1" rfl rfl rfl
    c1artist (List.mem_cons_self _ _) rfl rfl
  have Hneg := (fact_left_join c1events c1store c1out c1nomatch [c1song] [c1artist]
    rfl rfl rfl (by decide) rfl).2 (by decide)
  exact ⟨Hpos, Hneg⟩

/-- C5 counterexample: two filtered events sharing ts produce two TimeDim
rows with the same start_time, so a SongplayFact row's start_time matches
two TimeDim rows, not exactly one (and the inner join duplicates facts). -/
theorem time_join_exactly_one_counterexample :
    process_log_data c5events dimStore = Except.ok c5out ∧
    ((c5out.1.time.getD []).filter fun t => t.start_time = 1541717732796).length = 2 ∧
    (c5out.1.songplays.getD []).countP (fun f => f.start_time = 1541717732796) = 4 := by
  exact ⟨rfl, by decide, by decide⟩

/-- C5 (amended): the derived epoch-seconds value truncates `ts / 1000`
toward zero (1541717732796 gives 1541717732), and every SongplayFact row's
start_time finds at least one matching TimeDim row (inner-join
completeness) — exactly one when the filtered events have pairwise-distinct
timestamps. -/
theorem time_join_completeness :
    get_timestamp 1541717732796 = 1541717732 ∧
    ∀ (events : List Event) (store : Store) (out : Store × List WriteOp)
      (f : FactRow), process_log_data events store = Except.ok out →
      f ∈ out.1.songplays.getD [] →
      0 < ((out.1.time.getD []).filter fun t => t.start_time = f.start_time).length ∧
      (((page_filter events).map Event.ts).Nodup →
        ((out.1.time.getD []).filter fun t => t.start_time = f.start_time).length = 1) := by
  refine ⟨rfl, ?_⟩
  intro events store out f h hf
  obtain ⟨users_tbl, sp, song_df, artists_df, hu, hsp, hsongs, hartists, hout⟩ :=
    process_log_data_ok h
  subst hout
  replace hf : f ∈ songplays_query sp
      (create_time_table (page_filter events)) song_df artists_df := hf
  obtain ⟨p, hp, t0, ht0, hts0, hcase⟩ := query_provenance hf
  have hfst : f.start_time = p.start_time := by
    rcases hcase with ⟨rfl, -⟩ | ⟨s, -, rfl⟩ <;> rfl
  obtain ⟨hspe, -⟩ := create_songplays_dataframe_ok hsp
  subst hspe
  obtain ⟨ie, hie, hpe⟩ := List.mem_map.mp hp
  have he : ie.2 ∈ page_filter events := snd_mem_of_mem_enum hie
  have hpts : p.start_time = ie.2.ts := by subst hpe; rfl
  constructor
  · have hmem : t0 ∈ (create_time_table (page_filter events)).filter
        fun t => t.start_time = f.start_time :=
      List.mem_filter.mpr ⟨ht0, by simp [hts0, hfst]⟩
    exact List.length_pos_of_mem hmem
  · intro hnodup
    show ((create_time_table (page_filter events)).filter
        fun t => t.start_time = f.start_time).length = 1
    rw [show create_time_table (page_filter events)
        = (page_filter events).map time_row_of from rfl, count_time_filter]
    refine List.count_eq_one_of_mem hnodup ?_
    rw [hfst, hpts]
    exact List.mem_map_of_mem _ he

/-- Witness for the amended C5 on a concrete run with a unique timestamp. -/
theorem time_join_completeness_witness :
    get_timestamp 1541717732796 = 1541717732 ∧
    (0 < ((c8out.1.time.getD []).filter fun t => t.start_time =
        (mkFact (songplay_row_of (0, sampleEvent)) (time_row_of sampleEvent) none).start_time).length ∧
     ((c8out.1.time.getD []).filter fun t => t.start_time =
        (mkFact (songplay_row_of (0, sampleEvent)) (time_row_of sampleEvent) none).start_time).length = 1) := by
  have H2 := time_join_completeness.2 c8events dimStore c8out
    (mkFact (songplay_row_of (0, sampleEvent)) (time_row_of sampleEvent) none) rfl (by decide)
  exact ⟨time_join_completeness.1, H2.1, H2.2 (by decide)⟩

/-- C9: running the pipeline a second time on the same input, starting
from the store the first run produced, yields exactly the same store and
the same write operations — full-overwrite idempotence of a complete run. -/
theorem rerun_idempotent (rs : List SongRecord) (events : List Event)
    (store : Store) (out : Store × List WriteOp)
    (h : etl_main rs events store = Except.ok out) :
    etl_main rs events out.1 = Except.ok out := by
  unfold etl_main at h
  split at h
  next => cases h
  next s2 heq =>
    injection h with h'
    obtain ⟨u, sp, sd, ad, hu, hsp, hsd, had, hs2⟩ := process_log_data_ok heq
    have hsd' : sd = songs_table rs := by
      rw [show (process_song_data rs store).1.songs
          = some (songs_table rs) from rfl] at hsd
      injection hsd with h''
      exact h''.symm
    have had' : ad = artists_table rs := by
      rw [show (process_song_data rs store).1.artists
          = some (artists_table rs) from rfl] at had
      injection had with h''
      exact h''.symm
    subst hsd'
    subst had'
    rw [← h']
    show etl_main rs events s2.1 = Except.ok (s2.1,
      [⟨"songs/songs.parquet", "overwrite", ["year", "artist_id"]⟩,
       ⟨"artists/artists.parquet", "overwrite", []⟩] ++ s2.2)
    have hps2 : process_song_data rs s2.1 = (s2.1,
        [⟨"songs/songs.parquet", "overwrite", ["year", "artist_id"]⟩,
         ⟨"artists/artists.parquet", "overwrite", []⟩]) := by
      rw [hs2]
      rfl
    have hlog2 : process_log_data events s2.1 = Except.ok (s2.1,
        [⟨"users/users.parquet", "overwrite", []⟩,
         ⟨"time/time.parquet", "overwrite", ["year", "month"]⟩,
         ⟨"songplays/songplays.parquet", "overwrite", ["year", "month"]⟩]) := by
      rw [hs2]
      unfold process_log_data
      rw [hu, hsp]
      rfl
    unfold etl_main
    rw [hps2]
    show (match process_log_data events s2.1 with
          | Except.error m => Except.error m
          | Except.ok s3 => Except.ok (s3.1,
              [⟨"songs/songs.parquet", "overwrite", ["year", "artist_id"]⟩,
               ⟨"artists/artists.parquet", "overwrite", []⟩] ++ s3.2)) =
        Except.ok (s2.1,
          [⟨"songs/songs.parquet", "overwrite", ["year", "artist_id"]⟩,
           ⟨"artists/artists.parquet", "overwrite", []⟩] ++ s2.2)
    rw [hlog2, hs2]

/-- Witness for C9 on a concrete (empty-input) run. -/
theorem rerun_idempotent_witness : etl_main [] [] runEmpty.1 = Except.ok runEmpty :=
  rerun_idempotent [] [] emptyStore runEmpty rfl
